import Mathlib

/-!
# CouponManager — coupon lifecycle engine, shallow embedding

A shallow embedding of the coupon assignment / lock / redeem operations of
`src/modules/coupons/coupons/coupons.service.ts`, together with the cache
plane of `cache.service.ts` (dedup flags and distributed locks, stored in
distinct Redis buckets with distinct key builders).

Conventions:
* Times are `Nat` milliseconds (JavaScript `Date.now()`).
* Database `NULL`-able columns are `Option`s.
* A `jsonb` metadata bag is an association list `List (String × String)`
  (values are opaque to the service; only whole-object writes occur).
* Each transaction method is embedded as a pure function from the rows it
  reads (the SQL query results, `Option` for an empty result set) to
  `Except TxError` of the rows it writes.
-/

/-- Coupon status enum (`src/modules/coupons/shared/enums`). -/
inductive CouponStatus
  | available
  | assigned
  | locked
  | redeemed
  | expired
deriving DecidableEq, Repr

/-- Error kinds thrown by the service: `NotFoundException`,
`BusinessException`, `ConflictException`. -/
inductive TxError
  | notFound
  | business
  | conflict
deriving DecidableEq, Repr

/-- Opaque metadata bag (`jsonb` column, `Record<string, any>`). -/
abbrev Metadata := List (String × String)

/-- Row of the `coupons` table (`coupon.entity.ts`). -/
structure Coupon where
  id : Nat
  couponBookId : Nat
  code : String
  status : CouponStatus
  version : Nat
  updatedAt : Nat
deriving DecidableEq, Repr

/-- Row of the `coupon_assignments` table (`coupon-assignment.entity.ts`). -/
structure CouponAssignment where
  id : Nat
  couponId : Nat
  userId : String
  assignedAt : Nat
  lockedAt : Option Nat
  lockExpiresAt : Option Nat
  redeemedAt : Option Nat
  redemptionCount : Nat
  metadata : Option Metadata
deriving DecidableEq, Repr

/-- A fresh `coupons` row: column defaults of `coupon.entity.ts` —
`status` defaults to `AVAILABLE`, `@VersionColumn({ default: 1 })`. -/
def mkCoupon (id couponBookId : Nat) (code : String) (now : Nat) : Coupon :=
  { id := id
    couponBookId := couponBookId
    code := code
    status := CouponStatus.available
    version := 1
    updatedAt := now }

/-- A fresh `coupon_assignments` row, as produced by
`manager.create(CouponAssignment, { couponId, userId })` + `save`:
column defaults give `redemption_count = 0`, all nullable columns `NULL`,
`assigned_at = now` (`@CreateDateColumn`). -/
def mkNewAssignment (id couponId : Nat) (userId : String) (now : Nat) :
    CouponAssignment :=
  { id := id
    couponId := couponId
    userId := userId
    assignedAt := now
    lockedAt := none
    lockExpiresAt := none
    redeemedAt := none
    redemptionCount := 0
    metadata := none }

/-- `manager.update(Coupon, couponId, { status })`: TypeORM's
`UpdateQueryBuilder` on an entity carrying `@VersionColumn` and
`@UpdateDateColumn` also emits `version = version + 1` and
`updated_at = NOW()` (the entity doc: "Automatically incremented by
TypeORM on each update"). -/
def managerUpdateCouponStatus (c : Coupon) (newStatus : CouponStatus)
    (now : Nat) : Coupon :=
  { c with status := newStatus, version := c.version + 1, updatedAt := now }

/-- `isFullyRedeemed(currentCount, maxRedemptions)`:
`maxRedemptions !== null && currentCount >= maxRedemptions`. -/
def isFullyRedeemed (currentCount : Nat) (maxRedemptions : Option Nat) :
    Bool :=
  match maxRedemptions with
  | none => false
  | some m => currentCount ≥ m

/-- `getStatusAfterRedemption(isFullyRedeemed)`. -/
def getStatusAfterRedemption (fullyRedeemed : Bool) : CouponStatus :=
  if fullyRedeemed then CouponStatus.redeemed else CouponStatus.assigned

/-- `isValidStatusForRedemption(status)`: `false` for `REDEEMED`, then
`status === ASSIGNED || status === LOCKED`. -/
def isValidStatusForRedemption (status : CouponStatus) : Bool :=
  if status = CouponStatus.redeemed then false
  else status = CouponStatus.assigned ∨ status = CouponStatus.locked

/-- The guarded coupon update of `redeemCouponInTransaction`:
`UPDATE coupons SET status = $2, version = version + 1, updated_at = NOW()
WHERE id = $1 AND version = $3 RETURNING version` — a compare-and-set on
the version column; `none` models an empty `RETURNING` set (no row
matched the expected version). -/
def casUpdateCoupon (c : Coupon) (expectedVersion : Nat)
    (newStatus : CouponStatus) (now : Nat) : Option Coupon :=
  if c.version = expectedVersion then
    some { c with status := newStatus, version := c.version + 1,
                  updatedAt := now }
  else
    none

/-- The assignment update of `redeemCouponInTransaction`:
`UPDATE coupon_assignments SET redemption_count = $2, redeemed_at = NOW(),
locked_at = NULL, lock_expires_at = NULL, metadata = $3 WHERE id = $1`
with `$3 = JSON.stringify(metadata || {})` — the stored bag is replaced
wholesale by the supplied one (or by the empty object). -/
def applyRedeemAssignmentUpdate (a : CouponAssignment) (newCount : Nat)
    (now : Nat) (metadata : Option Metadata) : CouponAssignment :=
  { a with redemptionCount := newCount
           redeemedAt := some now
           lockedAt := none
           lockExpiresAt := none
           metadata := some (metadata.getD []) }

/-- Return shape of `redeemCouponInTransaction`. -/
structure RedeemTxResult where
  newCount : Nat
  maxRedemptions : Option Nat
  isFullyRedeemed : Bool
deriving DecidableEq, Repr

/-- `redeemCouponInTransaction(manager, code, userId, metadata)`.

`joined` is the result of the `FOR UPDATE NOWAIT` select joining the
coupon row, `coupon_books.max_redemptions_per_user`, and this user's
assignment row (`none` ⇔ empty result ⇒ `NotFoundException`).
`couponAtUpdate` is the coupon row at the moment the guarded `UPDATE`
executes (another writer may have bumped its version in between; the
`WHERE ... AND version = $3` clause is the compare-and-set). On success
the function returns the service result together with the two updated
rows. -/
def redeemCouponInTransaction
    (joined : Option (Coupon × Option Nat × CouponAssignment))
    (couponAtUpdate : Coupon) (metadata : Option Metadata) (now : Nat) :
    Except TxError (RedeemTxResult × Coupon × CouponAssignment) :=
  match joined with
  | none => Except.error TxError.notFound
  | some (c, maxRedemptions, a) =>
    if ¬ isValidStatusForRedemption c.status then
      Except.error TxError.business
    else if maxRedemptions.isSome ∧ a.redemptionCount ≥ maxRedemptions.getD 0
    then
      Except.error TxError.business
    else
      let newCount := a.redemptionCount + 1
      let fullyRedeemed := isFullyRedeemed newCount maxRedemptions
      let newStatus := getStatusAfterRedemption fullyRedeemed
      match casUpdateCoupon couponAtUpdate c.version newStatus now with
      | none => Except.error TxError.conflict
      | some c2 =>
        Except.ok
          ({ newCount := newCount
             maxRedemptions := maxRedemptions
             isFullyRedeemed := fullyRedeemed },
           c2,
           applyRedeemAssignmentUpdate a newCount now metadata)

/-- `assignRandomCouponInTransaction(manager, couponBookId, userId)`.

The select is `WHERE coupon_book_id = $1 AND status = AVAILABLE ORDER BY
RANDOM() LIMIT 1 FOR UPDATE SKIP LOCKED`; `pick` embeds the random order
(any candidate may be returned; with no candidate the result set is
empty ⇒ `BusinessException`). The chosen coupon is updated to `ASSIGNED`
via `manager.update` and a fresh assignment row is created. -/
def assignRandomCouponInTransaction (coupons : List Coupon)
    (couponBookId : Nat) (userId : String) (pick newAssignmentId now : Nat) :
    Except TxError (Coupon × CouponAssignment) :=
  let rows := coupons.filter fun c =>
    c.couponBookId = couponBookId ∧ c.status = CouponStatus.available
  match rows.get? (pick % rows.length) with
  | none => Except.error TxError.business
  | some c =>
    Except.ok (managerUpdateCouponStatus c CouponStatus.assigned now,
               mkNewAssignment newAssignmentId c.id userId now)

/-- `assignSpecificCouponInTransaction(manager, coupon, userId)`.

`rowStillPresent` is whether `SELECT * FROM coupons WHERE id = $1 FOR
UPDATE NOWAIT` returned the row (empty ⇒ `ConflictException`). Then the
pre-loaded entity's status must be `AVAILABLE` (else `BusinessException`);
the coupon is updated to `ASSIGNED` and an assignment row is created. -/
def assignSpecificCouponInTransaction (coupon : Coupon)
    (rowStillPresent : Bool) (userId : String) (newAssignmentId now : Nat) :
    Except TxError (Coupon × CouponAssignment) :=
  if ¬ rowStillPresent then
    Except.error TxError.conflict
  else if coupon.status ≠ CouponStatus.available then
    Except.error TxError.business
  else
    Except.ok (managerUpdateCouponStatus coupon CouponStatus.assigned now,
               mkNewAssignment newAssignmentId coupon.id userId now)

/-- `lockCouponInTransaction(manager, code, userId, duration)`.

`joined` is the `FOR UPDATE NOWAIT` select of the coupon joined with this
user's assignment row (`none` ⇒ `NotFoundException`). Status must pass
`isValidStatusForRedemption` (else `BusinessException`). The coupon goes
to `LOCKED`; the assignment gets `locked_at = NOW()` and
`lock_expires_at = now + duration·1000` ms. Returns the two updated rows
and the expiry. -/
def lockCouponInTransaction (joined : Option (Coupon × CouponAssignment))
    (duration now : Nat) :
    Except TxError (Coupon × CouponAssignment × Nat) :=
  match joined with
  | none => Except.error TxError.notFound
  | some (c, a) =>
    if ¬ isValidStatusForRedemption c.status then
      Except.error TxError.business
    else
      let expiresAt := now + duration * 1000
      Except.ok (managerUpdateCouponStatus c CouponStatus.locked now,
                 { a with lockedAt := some now,
                          lockExpiresAt := some expiresAt },
                 expiresAt)

/-- `unlockCouponInTransaction(manager, code, userId)`.

`joined` as in `lockCouponInTransaction` but locked plain `FOR UPDATE`.
Status must be exactly `LOCKED` (else `BusinessException`); the coupon
returns to `ASSIGNED` and both lock columns are set back to `NULL`. -/
def unlockCouponInTransaction (joined : Option (Coupon × CouponAssignment))
    (now : Nat) : Except TxError (Coupon × CouponAssignment) :=
  match joined with
  | none => Except.error TxError.notFound
  | some (c, a) =>
    if c.status ≠ CouponStatus.locked then
      Except.error TxError.business
    else
      Except.ok (managerUpdateCouponStatus c CouponStatus.assigned now,
                 { a with lockedAt := none, lockExpiresAt := none })

/-!
## Cache plane (`cache.service.ts` + `cache-config.service.ts`)

Dedup flags live in the `dedup` Redis bucket under key
`CacheKeyBuilder.dedup(feature, hash) = "feature:hash"`; distributed
locks live in the separate `locks` bucket under
`CacheKeyBuilder.lock(feature, resource)`. The buckets are distinct
clients with distinct key prefixes, so the two key spaces never collide;
we model them as two independent association lists from `(feature,
resource)` to the entry's absolute expiry time (Redis `EX` TTL). -/

/-- State of the cache plane: unexpired `dedup` flags and `locks`
entries, each mapping `(feature, resource)` to its expiry time (ms). -/
structure CacheState where
  dedup : List ((String × String) × Nat)
  locks : List ((String × String) × Nat)
deriving DecidableEq, Repr

/-- `hasDedup(feature, hash)` at time `t`: Redis `EXISTS` on the dedup
bucket — true iff an unexpired flag is stored. -/
def hasDedup (s : CacheState) (feature hash : String) (t : Nat) : Bool :=
  s.dedup.any fun e => e.1 = (feature, hash) ∧ t < e.2

/-- `setDedup(feature, hash, ttl)` at time `t`: Redis `SET ... EX ttl`
(overwrites any previous entry for the key). -/
def setDedup (s : CacheState) (feature hash : String) (ttl t : Nat) :
    CacheState :=
  { s with dedup := ((feature, hash), t + ttl * 1000) ::
      s.dedup.filter fun e => e.1 ≠ (feature, hash) }

/-- `acquireLock(feature, resource, ttlSeconds)` at time `t`: Redis
`SET key now EX ttl NX` on the locks bucket — fails iff an unexpired
entry already exists; on success stores the entry. -/
def acquireLock (s : CacheState) (feature resource : String) (ttl t : Nat) :
    Bool × CacheState :=
  if s.locks.any fun e => e.1 = (feature, resource) ∧ t < e.2 then
    (false, s)
  else
    (true, { s with locks := ((feature, resource), t + ttl * 1000) ::
        s.locks.filter fun e => e.1 ≠ (feature, resource) })

/-- `releaseLock(feature, resource)`: Redis `DEL` on the locks bucket. -/
def releaseLock (s : CacheState) (feature resource : String) : CacheState :=
  { s with locks := s.locks.filter fun e => e.1 ≠ (feature, resource) }

/-- `CacheFeature.COUPON_REDEEM`. -/
def couponRedeemFeature : String := "coupon-redeem"

/-- `buildCouponUserKey(normalizedCode, userId)` = `"code:userId"`. -/
def buildCouponUserKey (normalizedCode userId : String) : String :=
  normalizedCode ++ ":" ++ userId

/-- `checkAndSetRedemptionDedup(couponUserKey)`: `ConflictException` when
the flag is already set, otherwise set it with TTL 60 s. -/
def checkAndSetRedemptionDedup (s : CacheState) (couponUserKey : String)
    (t : Nat) : Except TxError CacheState :=
  if hasDedup s couponRedeemFeature couponUserKey t then
    Except.error TxError.conflict
  else
    Except.ok (setDedup s couponRedeemFeature couponUserKey 60 t)

/-- `acquireRedemptionLock(couponUserKey)`: distributed lock with TTL
10 s; `ConflictException` when not acquired. -/
def acquireRedemptionLock (s : CacheState) (couponUserKey : String)
    (t : Nat) : Except TxError CacheState :=
  match acquireLock s couponRedeemFeature couponUserKey 10 t with
  | (true, s2) => Except.ok s2
  | (false, _) => Except.error TxError.conflict

/-- `releaseRedemptionLock(couponUserKey)`. -/
def releaseRedemptionLock (s : CacheState) (couponUserKey : String) :
    CacheState :=
  releaseLock s couponRedeemFeature couponUserKey

/-- The cache-facing shell of `redeemCoupon(code, userId, metadata)`:
dedup check-and-set, lock acquisition, then the database transaction
(abstracted as its outcome `txResult`), with `releaseRedemptionLock` in
the `finally` of the `try` that wraps only the transaction — the dedup
flag is never deleted on any path. Returns the call's outcome and the
final cache state. -/
def redeemCoupon (s : CacheState) (code userId : String)
    (txResult : Except TxError RedeemTxResult) (t : Nat) :
    Except TxError RedeemTxResult × CacheState :=
  let couponUserKey := buildCouponUserKey code userId
  match checkAndSetRedemptionDedup s couponUserKey t with
  | Except.error e => (Except.error e, s)
  | Except.ok s1 =>
    match acquireRedemptionLock s1 couponUserKey t with
    | Except.error e => (Except.error e, s1)
    | Except.ok s2 => (txResult, releaseRedemptionLock s2 couponUserKey)

/-!
## Theorems
-/

/-- Key fact behind the status computed on redemption: once the
pre-update limit check has passed (`newCount ≤ m` whenever the limit is
`some m`), `currentCount ≥ m` collapses to `newCount = m`. -/
theorem getStatusAfterRedemption_eq (newCount : Nat) (maxR : Option Nat)
    (h : ∀ m, maxR = some m → newCount ≤ m) :
    getStatusAfterRedemption (isFullyRedeemed newCount maxR) =
      if maxR = some newCount then CouponStatus.redeemed
      else CouponStatus.assigned := by
  cases maxR with
  | none => simp [isFullyRedeemed, getStatusAfterRedemption]
  | some m =>
    have hle : newCount ≤ m := h m rfl
    by_cases hm : m = newCount
    · subst hm
      simp [isFullyRedeemed, getStatusAfterRedemption]
    · have : ¬ m ≤ newCount := by omega
      simp [isFullyRedeemed, getStatusAfterRedemption, this, hm,
        Ne.symm hm]

/-- Companion to `getStatusAfterRedemption_eq` for the boolean
`fullyRedeemed` flag itself. -/
theorem isFullyRedeemed_eq_decide (newCount : Nat) (maxR : Option Nat)
    (h : ∀ m, maxR = some m → newCount ≤ m) :
    isFullyRedeemed newCount maxR = decide (maxR = some newCount) := by
  cases maxR with
  | none => simp [isFullyRedeemed]
  | some m =>
    have hle : newCount ≤ m := h m rfl
    by_cases hm : m = newCount
    · subst hm
      simp [isFullyRedeemed]
    · have : ¬ m ≤ newCount := by omega
      simp [isFullyRedeemed, this, hm, Ne.symm hm]

/-- C1. For a `Redeem` whose joined coupon/assignment row exists with the
coupon in status `ASSIGNED` or `LOCKED`: when the book's per-user limit
is set and `redemptionCount + 1` exceeds it, the transaction fails with
`Business` (an `Except.error` carries no updated rows, so no state
changes); otherwise the assignment's count becomes its old value `+ 1`
and the coupon's status becomes `REDEEMED` exactly when the limit is set
and equals the new count (`ASSIGNED` otherwise), via a compare-and-set
on the version read earlier — succeeding (and bumping the version) when
the row still carries that version, failing with `Conflict` when no row
matches. -/
theorem redeem_transaction_limit_and_cas
    (c cU : Coupon) (maxR : Option Nat) (a : CouponAssignment)
    (meta : Option Metadata) (now : Nat)
    (hstatus : c.status = CouponStatus.assigned ∨
               c.status = CouponStatus.locked) :
    (∀ m, maxR = some m → m < a.redemptionCount + 1 →
        redeemCouponInTransaction (some (c, maxR, a)) cU meta now =
          Except.error TxError.business) ∧
    ((∀ m, maxR = some m → a.redemptionCount + 1 ≤ m) →
      (cU.version = c.version →
        redeemCouponInTransaction (some (c, maxR, a)) cU meta now =
          Except.ok
            ({ newCount := a.redemptionCount + 1
               maxRedemptions := maxR
               isFullyRedeemed := decide (maxR = some (a.redemptionCount + 1)) },
             { cU with
                 status :=
                   if maxR = some (a.redemptionCount + 1) then
                     CouponStatus.redeemed
                   else CouponStatus.assigned
                 version := cU.version + 1
                 updatedAt := now },
             { a with
                 redemptionCount := a.redemptionCount + 1
                 redeemedAt := some now
                 lockedAt := none
                 lockExpiresAt := none
                 metadata := some (meta.getD []) })) ∧
      (cU.version ≠ c.version →
        redeemCouponInTransaction (some (c, maxR, a)) cU meta now =
          Except.error TxError.conflict)) := by
  have hvalid : isValidStatusForRedemption c.status = true := by
    rcases hstatus with h | h <;> simp [isValidStatusForRedemption, h]
  refine ⟨?_, ?_⟩
  · intro m hm hlt
    subst hm
    simp [redeemCouponInTransaction, hvalid]
    intro h2
    omega
  · intro hle
    have hcond : ¬ (maxR.isSome ∧ a.redemptionCount ≥ maxR.getD 0) := by
      cases maxR with
      | none => simp
      | some m =>
        have := hle m rfl
        simp only [Option.isSome_some, Option.getD_some, true_and]
        omega
    refine ⟨?_, ?_⟩
    · intro hv
      have hstat := getStatusAfterRedemption_eq (a.redemptionCount + 1)
        maxR hle
      have hfull := isFullyRedeemed_eq_decide (a.redemptionCount + 1)
        maxR hle
      simp [redeemCouponInTransaction, hvalid, hcond, casUpdateCoupon, hv,
        applyRedeemAssignmentUpdate, hstat, hfull]
      by_cases hP : maxR = some (a.redemptionCount + 1) <;>
        simp [getStatusAfterRedemption, hP]
    · intro hv
      simp [redeemCouponInTransaction, hvalid, hcond, casUpdateCoupon, hv]

/-- C1 witness: a locked coupon (version 4) with one prior redemption
against a limit of 2 redeems successfully — the count reaches the limit,
so the coupon becomes `REDEEMED` with version 5. -/
theorem redeem_transaction_limit_and_cas_witness :
    redeemCouponInTransaction
        (some (⟨10, 3, "CODE10", CouponStatus.locked, 4, 0⟩, some 2,
               ⟨7, 10, "u1", 0, some 1, some 2, none, 1, some [("a", "1")]⟩))
        ⟨10, 3, "CODE10", CouponStatus.locked, 4, 0⟩
        (some [("order", "55")]) 99 =
      Except.ok
        ({ newCount := 2, maxRedemptions := some 2,
           isFullyRedeemed :=
             decide ((some 2 : Option Nat) = some 2) },
         { (⟨10, 3, "CODE10", CouponStatus.locked, 4, 0⟩ : Coupon) with
             status :=
               if (some 2 : Option Nat) = some 2 then CouponStatus.redeemed
               else CouponStatus.assigned
             version := 5
             updatedAt := 99 },
         { (⟨7, 10, "u1", 0, some 1, some 2, none, 1,
              some [("a", "1")]⟩ : CouponAssignment) with
             redemptionCount := 2
             redeemedAt := some 99
             lockedAt := none
             lockExpiresAt := none
             metadata := some ((some [("order", "55")] :
               Option Metadata).getD []) }) :=
  ((redeem_transaction_limit_and_cas _ _ _ _ _ _ (Or.inr rfl)).2
    (fun m hm => by injection hm with h2; subst h2; decide)).1 rfl

/-- C3 counterexample. A successful redeem where the assignment already
stores the key `"a"` and the supplied metadata `[("b","2")]` does not
override it: the updated row's bag is exactly the supplied object — the
previously stored key `"a"` is gone, refuting "keys already stored and
not overridden are preserved". The redeem UPDATE writes
`metadata = JSON.stringify(metadata || {})`, a wholesale replacement. -/
theorem redeem_metadata_replaced_cex :
    redeemCouponInTransaction
        (some (⟨1, 1, "C", CouponStatus.assigned, 1, 0⟩, none,
               ⟨1, 1, "u", 0, none, none, none, 0, some [("a", "1")]⟩))
        ⟨1, 1, "C", CouponStatus.assigned, 1, 0⟩ (some [("b", "2")]) 5 =
      Except.ok
        ({ newCount := 1, maxRedemptions := none, isFullyRedeemed := false },
         ⟨1, 1, "C", CouponStatus.assigned, 2, 5⟩,
         ⟨1, 1, "u", 0, none, none, some 5, 1, some [("b", "2")]⟩) ∧
    ([("a", "1")] : Metadata).lookup "a" = some "1" ∧
    ([("b", "2")] : Metadata).lookup "a" = none := by
  refine ⟨rfl, rfl, rfl⟩

/-- C3 (amended). On every successful redeem transaction the assignment
row keeps its identity columns and gets `redemptionCount` = old `+ 1`
(equal to the returned `newCount`), `redeemedAt` = now, both lock columns
cleared to `NULL`, and its metadata REPLACED wholesale by the supplied
bag (the empty object when none is supplied); stored keys absent from
the supplied bag are not preserved. -/
theorem redeem_assignment_update
    (c cU : Coupon) (maxR : Option Nat) (a : CouponAssignment)
    (meta : Option Metadata) (now : Nat)
    (r : RedeemTxResult) (c2 : Coupon) (a2 : CouponAssignment)
    (h : redeemCouponInTransaction (some (c, maxR, a)) cU meta now =
          Except.ok (r, c2, a2)) :
    r.newCount = a.redemptionCount + 1 ∧
    a2.redemptionCount = a.redemptionCount + 1 ∧
    a2.redeemedAt = some now ∧
    a2.lockedAt = none ∧
    a2.lockExpiresAt = none ∧
    a2.metadata = some (meta.getD []) ∧
    a2.id = a.id ∧ a2.couponId = a.couponId ∧
    a2.userId = a.userId ∧ a2.assignedAt = a.assignedAt := by
  simp only [redeemCouponInTransaction] at h
  split at h
  · exact absurd h (by simp)
  · split at h
    · exact absurd h (by simp)
    · split at h
      · exact absurd h (by simp)
      · rw [Except.ok.injEq, Prod.mk.injEq, Prod.mk.injEq] at h
        obtain ⟨hr, -, ha2⟩ := h
        subst hr
        subst ha2
        simp [applyRedeemAssignmentUpdate]

/-- C3 witness: a redeem with two prior redemptions, limit 5, and no
supplied metadata — the assignment row ends with count 3, `redeemedAt`
set, lock columns null, and the empty object as metadata. -/
theorem redeem_assignment_update_witness :
    (⟨3, some 5, false⟩ : RedeemTxResult).newCount = 2 + 1 ∧
    (⟨9, 2, "u2", 1, none, none, some 8, 3, some []⟩ :
        CouponAssignment).redemptionCount = 2 + 1 ∧
    (⟨9, 2, "u2", 1, none, none, some 8, 3, some []⟩ :
        CouponAssignment).redeemedAt = some 8 ∧
    (⟨9, 2, "u2", 1, none, none, some 8, 3, some []⟩ :
        CouponAssignment).lockedAt = none ∧
    (⟨9, 2, "u2", 1, none, none, some 8, 3, some []⟩ :
        CouponAssignment).lockExpiresAt = none ∧
    (⟨9, 2, "u2", 1, none, none, some 8, 3, some []⟩ :
        CouponAssignment).metadata =
      some ((none : Option Metadata).getD []) ∧
    (⟨9, 2, "u2", 1, none, none, some 8, 3, some []⟩ :
        CouponAssignment).id =
      (⟨9, 2, "u2", 1, some 3, some 4, none, 2, none⟩ :
        CouponAssignment).id ∧
    (⟨9, 2, "u2", 1, none, none, some 8, 3, some []⟩ :
        CouponAssignment).couponId =
      (⟨9, 2, "u2", 1, some 3, some 4, none, 2, none⟩ :
        CouponAssignment).couponId ∧
    (⟨9, 2, "u2", 1, none, none, some 8, 3, some []⟩ :
        CouponAssignment).userId =
      (⟨9, 2, "u2", 1, some 3, some 4, none, 2, none⟩ :
        CouponAssignment).userId ∧
    (⟨9, 2, "u2", 1, none, none, some 8, 3, some []⟩ :
        CouponAssignment).assignedAt =
      (⟨9, 2, "u2", 1, some 3, some 4, none, 2, none⟩ :
        CouponAssignment).assignedAt :=
  redeem_assignment_update
    ⟨2, 1, "D", CouponStatus.assigned, 3, 0⟩
    ⟨2, 1, "D", CouponStatus.assigned, 3, 0⟩ (some 5)
    ⟨9, 2, "u2", 1, some 3, some 4, none, 2, none⟩ none 8
    ⟨3, some 5, false⟩ ⟨2, 1, "D", CouponStatus.assigned, 4, 8⟩
    ⟨9, 2, "u2", 1, none, none, some 8, 3, some []⟩ rfl

/-- Acquiring a distributed lock never touches the dedup bucket (the two
key spaces live in distinct Redis clients). -/
theorem acquireLock_dedup (s : CacheState) (feature resource : String)
    (ttl t : Nat) :
    ((acquireLock s feature resource ttl t).2).dedup = s.dedup := by
  simp only [acquireLock]
  split <;> rfl

/-- Releasing a distributed lock never touches the dedup bucket. -/
theorem releaseLock_dedup (s : CacheState) (feature resource : String) :
    (releaseLock s feature resource).dedup = s.dedup := rfl

/-- The dedup bucket of the cache state left behind by `redeemCoupon`,
when the incoming state has no flag for this coupon/user: the freshly
set 60 s flag is at its head, on every path. -/
theorem redeemCoupon_dedup (s : CacheState) (code userId : String)
    (tx : Except TxError RedeemTxResult) (t : Nat)
    (hflag : hasDedup s couponRedeemFeature
        (buildCouponUserKey code userId) t = false) :
    ((redeemCoupon s code userId tx t).2).dedup =
      ((couponRedeemFeature, buildCouponUserKey code userId),
        t + 60 * 1000) ::
        s.dedup.filter
          (fun e => e.1 ≠ (couponRedeemFeature,
            buildCouponUserKey code userId)) := by
  have h1 : checkAndSetRedemptionDedup s (buildCouponUserKey code userId) t
      = Except.ok (setDedup s couponRedeemFeature
          (buildCouponUserKey code userId) 60 t) := by
    simp [checkAndSetRedemptionDedup, hflag]
  rcases h2 : acquireLock (setDedup s couponRedeemFeature
      (buildCouponUserKey code userId) 60 t) couponRedeemFeature
      (buildCouponUserKey code userId) 10 t with ⟨b, s2⟩
  have hd2 : s2.dedup = (setDedup s couponRedeemFeature
      (buildCouponUserKey code userId) 60 t).dedup := by
    have := acquireLock_dedup (setDedup s couponRedeemFeature
      (buildCouponUserKey code userId) 60 t) couponRedeemFeature
      (buildCouponUserKey code userId) 10 t
    rw [h2] at this
    exact this
  cases b
  · simp only [redeemCoupon, h1, acquireRedemptionLock, h2]
    simp [setDedup]
  · simp only [redeemCoupon, h1, acquireRedemptionLock, h2]
    simp [releaseRedemptionLock, releaseLock, hd2, setDedup]

/-- C2 counterexample. Starting from an empty cache (so the call does set
the dedup flag), a successful `Redeem` leaves the flag set on exit, and
an immediately following `Redeem` for the same code and user is rejected
with `Conflict` by the idempotency-suppression layer — refuting both
halves of the claim. Only the `locks`-bucket entry is released in the
`finally`; no code path deletes a dedup flag. -/
theorem redemption_dedup_not_cleared_cex :
    hasDedup (⟨[], []⟩ : CacheState) couponRedeemFeature
        (buildCouponUserKey "C" "u") 0 = false ∧
    hasDedup
        (redeemCoupon ⟨[], []⟩ "C" "u"
          (Except.ok { newCount := 1, maxRedemptions := none,
                       isFullyRedeemed := false }) 0).2
        couponRedeemFeature (buildCouponUserKey "C" "u") 0 = true ∧
    (redeemCoupon
        (redeemCoupon ⟨[], []⟩ "C" "u"
          (Except.ok { newCount := 1, maxRedemptions := none,
                       isFullyRedeemed := false }) 0).2
        "C" "u"
        (Except.ok { newCount := 1, maxRedemptions := none,
                     isFullyRedeemed := false }) 0).1 =
      Except.error TxError.conflict :=
  ⟨rfl, rfl, rfl⟩

/-- C2 (amended). A `Redeem` call that sets the redemption dedup flag
does NOT clear it on exit: the flag persists with its 60 s TTL on every
path (success or failure), so any following `Redeem` for the same code
and user started before the TTL expires is rejected with `Conflict` by
the idempotency-suppression layer, without touching the cache further.
Only the distributed redemption lock is released on function exit. -/
theorem redemption_dedup_persists
    (s : CacheState) (code userId : String)
    (tx tx2 : Except TxError RedeemTxResult) (t t2 : Nat)
    (hflag : hasDedup s couponRedeemFeature
        (buildCouponUserKey code userId) t = false)
    (hlt : t2 < t + 60 * 1000) :
    hasDedup (redeemCoupon s code userId tx t).2 couponRedeemFeature
        (buildCouponUserKey code userId) t2 = true ∧
    (redeemCoupon (redeemCoupon s code userId tx t).2 code userId
        tx2 t2).1 = Except.error TxError.conflict ∧
    (redeemCoupon (redeemCoupon s code userId tx t).2 code userId
        tx2 t2).2 = (redeemCoupon s code userId tx t).2 := by
  have hD := redeemCoupon_dedup s code userId tx t hflag
  have hset : hasDedup (redeemCoupon s code userId tx t).2
      couponRedeemFeature (buildCouponUserKey code userId) t2 = true := by
    simp [hasDedup, hD]
    exact Or.inl hlt
  have hrej : ∀ S : CacheState,
      hasDedup S couponRedeemFeature (buildCouponUserKey code userId) t2 =
        true →
      redeemCoupon S code userId tx2 t2 =
        (Except.error TxError.conflict, S) := by
    intro S hS
    simp [redeemCoupon, checkAndSetRedemptionDedup, hS]
  refine ⟨hset, ?_, ?_⟩
  · rw [hrej _ hset]
  · rw [hrej _ hset]

/-- C2 witness: from an empty cache at t = 0, a successful redeem leaves
the flag set; a retry at t = 30000 ms (inside the 60 s TTL) is rejected
with `Conflict` and leaves the cache untouched. -/
theorem redemption_dedup_persists_witness :
    hasDedup
        (redeemCoupon ⟨[], []⟩ "X" "u9"
          (Except.ok { newCount := 1, maxRedemptions := some 3,
                       isFullyRedeemed := false }) 0).2
        couponRedeemFeature (buildCouponUserKey "X" "u9") 30000 = true ∧
    (redeemCoupon
        (redeemCoupon ⟨[], []⟩ "X" "u9"
          (Except.ok { newCount := 1, maxRedemptions := some 3,
                       isFullyRedeemed := false }) 0).2
        "X" "u9"
        (Except.ok { newCount := 2, maxRedemptions := some 3,
                     isFullyRedeemed := false }) 30000).1 =
      Except.error TxError.conflict ∧
    (redeemCoupon
        (redeemCoupon ⟨[], []⟩ "X" "u9"
          (Except.ok { newCount := 1, maxRedemptions := some 3,
                       isFullyRedeemed := false }) 0).2
        "X" "u9"
        (Except.ok { newCount := 2, maxRedemptions := some 3,
                     isFullyRedeemed := false }) 30000).2 =
      (redeemCoupon ⟨[], []⟩ "X" "u9"
        (Except.ok { newCount := 1, maxRedemptions := some 3,
                     isFullyRedeemed := false }) 0).2 :=
  redemption_dedup_persists ⟨[], []⟩ "X" "u9" _ _ 0 30000 rfl
    (by decide)

/-- C4. A coupon's version starts at 1 (`@VersionColumn({ default: 1 })`)
and every status-changing mutation strictly increases it: the four
`manager.update`-based transactions (random assign, specific assign,
lock, unlock) bump it via TypeORM's automatic `version = version + 1`,
and redeem bumps it explicitly in its compare-and-set `UPDATE`. Each
successful transaction leaves the touched coupon row at exactly the
prior version plus one. -/
theorem coupon_version_monotonic :
    (∀ id bookId code now, (mkCoupon id bookId code now).version = 1) ∧
    (∀ coupons bookId userId pick aid now c2 a2,
      assignRandomCouponInTransaction coupons bookId userId pick aid now =
        Except.ok (c2, a2) →
      ∃ c0, c0 ∈ coupons ∧ c0.status = CouponStatus.available ∧
        c0.couponBookId = bookId ∧ c2.version = c0.version + 1 ∧
        c0.version < c2.version) ∧
    (∀ coupon present userId aid now c2 a2,
      assignSpecificCouponInTransaction coupon present userId aid now =
        Except.ok (c2, a2) →
      c2.version = coupon.version + 1 ∧ coupon.version < c2.version) ∧
    (∀ c0 a0 duration now c2 a2 exp,
      lockCouponInTransaction (some (c0, a0)) duration now =
        Except.ok (c2, a2, exp) →
      c2.version = c0.version + 1 ∧ c0.version < c2.version) ∧
    (∀ c0 a0 now c2 a2,
      unlockCouponInTransaction (some (c0, a0)) now =
        Except.ok (c2, a2) →
      c2.version = c0.version + 1 ∧ c0.version < c2.version) ∧
    (∀ joined cU meta now r c2 a2,
      redeemCouponInTransaction joined cU meta now =
        Except.ok (r, c2, a2) →
      c2.version = cU.version + 1 ∧ cU.version < c2.version) := by
  refine ⟨fun _ _ _ _ => rfl, ?_, ?_, ?_, ?_, ?_⟩
  · intro coupons bookId userId pick aid now c2 a2 h
    simp only [assignRandomCouponInTransaction] at h
    cases hg : (coupons.filter fun c =>
        c.couponBookId = bookId ∧ c.status = CouponStatus.available).get?
        (pick % (coupons.filter fun c =>
          c.couponBookId = bookId ∧
          c.status = CouponStatus.available).length) with
    | none =>
      rw [hg] at h
      exact absurd h (by simp)
    | some c0 =>
      rw [hg] at h
      have hmem := List.get?_mem hg
      obtain ⟨hmemc, hpred⟩ := List.mem_filter.1 hmem
      have hprops : c0.couponBookId = bookId ∧
          c0.status = CouponStatus.available := of_decide_eq_true hpred
      rw [Except.ok.injEq, Prod.mk.injEq] at h
      obtain ⟨hc2, -⟩ := h
      refine ⟨c0, hmemc, hprops.2, hprops.1, ?_, ?_⟩ <;>
        simp [← hc2, managerUpdateCouponStatus]
  · intro coupon present userId aid now c2 a2 h
    simp only [assignSpecificCouponInTransaction] at h
    split at h
    · exact absurd h (by simp)
    · split at h
      · exact absurd h (by simp)
      · rw [Except.ok.injEq, Prod.mk.injEq] at h
        obtain ⟨hc2, -⟩ := h
        constructor <;> simp [← hc2, managerUpdateCouponStatus]
  · intro c0 a0 duration now c2 a2 exp h
    simp only [lockCouponInTransaction] at h
    split at h
    · exact absurd h (by simp)
    · rw [Except.ok.injEq, Prod.mk.injEq] at h
      obtain ⟨hc2, -⟩ := h
      constructor <;> simp [← hc2, managerUpdateCouponStatus]
  · intro c0 a0 now c2 a2 h
    simp only [unlockCouponInTransaction] at h
    split at h
    · exact absurd h (by simp)
    · rw [Except.ok.injEq, Prod.mk.injEq] at h
      obtain ⟨hc2, -⟩ := h
      constructor <;> simp [← hc2, managerUpdateCouponStatus]
  · intro joined cU meta now r c2 a2 h
    match joined with
    | none => exact absurd h (by simp [redeemCouponInTransaction])
    | some (c, maxR, a) =>
      simp only [redeemCouponInTransaction] at h
      split at h
      · exact absurd h (by simp)
      · split at h
        · exact absurd h (by simp)
        · rcases hcas : casUpdateCoupon cU c.version
            (getStatusAfterRedemption
              (isFullyRedeemed (a.redemptionCount + 1) maxR)) now with
            _ | c2'
          · rw [hcas] at h
            exact absurd h (by simp)
          · rw [hcas] at h
            rw [Except.ok.injEq, Prod.mk.injEq, Prod.mk.injEq] at h
            obtain ⟨-, hc2, -⟩ := h
            simp only [casUpdateCoupon] at hcas
            split at hcas
            · rw [Option.some.injEq] at hcas
              constructor <;> simp [← hc2, ← hcas]
            · exact absurd hcas (by simp)

/-- C4 witness: concrete runs of all five operations, each bumping the
touched coupon's version by exactly one, plus a fresh coupon at
version 1. -/
theorem coupon_version_monotonic_witness :
    (mkCoupon 1 2 "A" 0).version = 1 ∧
    (∃ c0, c0 ∈ [(⟨5, 1, "R1", CouponStatus.available, 1, 0⟩ : Coupon)] ∧
      c0.status = CouponStatus.available ∧ c0.couponBookId = 1 ∧
      (⟨5, 1, "R1", CouponStatus.assigned, 2, 2⟩ : Coupon).version =
        c0.version + 1 ∧
      c0.version <
        (⟨5, 1, "R1", CouponStatus.assigned, 2, 2⟩ : Coupon).version) ∧
    ((⟨6, 1, "S1", CouponStatus.assigned, 2, 3⟩ : Coupon).version =
        (⟨6, 1, "S1", CouponStatus.available, 1, 0⟩ : Coupon).version + 1 ∧
      (⟨6, 1, "S1", CouponStatus.available, 1, 0⟩ : Coupon).version <
        (⟨6, 1, "S1", CouponStatus.assigned, 2, 3⟩ : Coupon).version) ∧
    ((⟨7, 1, "L1", CouponStatus.locked, 2, 5⟩ : Coupon).version =
        (⟨7, 1, "L1", CouponStatus.assigned, 1, 0⟩ : Coupon).version + 1 ∧
      (⟨7, 1, "L1", CouponStatus.assigned, 1, 0⟩ : Coupon).version <
        (⟨7, 1, "L1", CouponStatus.locked, 2, 5⟩ : Coupon).version) ∧
    ((⟨8, 1, "U1", CouponStatus.assigned, 3, 6⟩ : Coupon).version =
        (⟨8, 1, "U1", CouponStatus.locked, 2, 0⟩ : Coupon).version + 1 ∧
      (⟨8, 1, "U1", CouponStatus.locked, 2, 0⟩ : Coupon).version <
        (⟨8, 1, "U1", CouponStatus.assigned, 3, 6⟩ : Coupon).version) ∧
    ((⟨9, 1, "M1", CouponStatus.assigned, 2, 7⟩ : Coupon).version =
        (⟨9, 1, "M1", CouponStatus.assigned, 1, 0⟩ : Coupon).version + 1 ∧
      (⟨9, 1, "M1", CouponStatus.assigned, 1, 0⟩ : Coupon).version <
        (⟨9, 1, "M1", CouponStatus.assigned, 2, 7⟩ : Coupon).version) :=
  ⟨coupon_version_monotonic.1 1 2 "A" 0,
   coupon_version_monotonic.2.1
     [⟨5, 1, "R1", CouponStatus.available, 1, 0⟩] 1 "u" 0 3 2
     ⟨5, 1, "R1", CouponStatus.assigned, 2, 2⟩
     (mkNewAssignment 3 5 "u" 2) rfl,
   coupon_version_monotonic.2.2.1
     ⟨6, 1, "S1", CouponStatus.available, 1, 0⟩ true "u" 4 3
     ⟨6, 1, "S1", CouponStatus.assigned, 2, 3⟩
     (mkNewAssignment 4 6 "u" 3) rfl,
   coupon_version_monotonic.2.2.2.1
     ⟨7, 1, "L1", CouponStatus.assigned, 1, 0⟩
     (mkNewAssignment 11 7 "u" 0) 300 5
     ⟨7, 1, "L1", CouponStatus.locked, 2, 5⟩
     ⟨11, 7, "u", 0, some 5, some 300005, none, 0, none⟩ 300005 rfl,
   coupon_version_monotonic.2.2.2.2.1
     ⟨8, 1, "U1", CouponStatus.locked, 2, 0⟩
     ⟨12, 8, "u", 0, some 1, some 2, none, 0, none⟩ 6
     ⟨8, 1, "U1", CouponStatus.assigned, 3, 6⟩
     ⟨12, 8, "u", 0, none, none, none, 0, none⟩ rfl,
   coupon_version_monotonic.2.2.2.2.2
     (some (⟨9, 1, "M1", CouponStatus.assigned, 1, 0⟩, none,
            ⟨13, 9, "u", 0, none, none, none, 0, none⟩))
     ⟨9, 1, "M1", CouponStatus.assigned, 1, 0⟩ none 7
     ⟨1, none, false⟩ ⟨9, 1, "M1", CouponStatus.assigned, 2, 7⟩
     ⟨13, 9, "u", 0, none, none, some 7, 1, some []⟩ rfl⟩
